import Mathlib

/-!
Verification of the sandbox / command-confinement layer of the agent-coder
sample (`sandbox.py`, `local_tools.py`).

The Python code is shallowly embedded: strings are Lean `String`s (operated on
through their `List Char` data), Python `os.path` functions are reimplemented
following CPython's `posixpath` source, the process-wide registry state
(`current_sandbox`, `sandboxes`, the on-disk directories) is passed explicitly,
and the external processes (`git`, the subprocess runner) are oracles supplied
as parameters.
-/

namespace AgentCoder

/-! ## Python string primitives, modelled on `List Char` -/

/-- Python `sub in s` (substring containment) on character lists. -/
def containsSubL (pat l : List Char) : Bool :=
  l.tails.any (fun t => pat.isPrefixOf t)

/-- Python `sub in s` for strings. -/
def pyIn (sub s : String) : Bool := containsSubL sub.data s.data

/-- Python `s.startswith(pre)`. -/
def pyStartswith (s pre : String) : Bool := pre.data.isPrefixOf s.data

/-- Python `s.endswith(suf)`. -/
def pyEndswith (s suf : String) : Bool := suf.data.isSuffixOf s.data

/-- Core of Python `str.replace` for a non-empty pattern `p :: ps`:
leftmost, non-overlapping replacement.  The fuel argument (instantiated
with the length of the string, which suffices because every step consumes
at least one character) keeps the recursion structural. -/
def replaceCore (p : Char) (ps rep : List Char) : Nat → List Char → List Char
  | _, [] => []
  | 0, s => s
  | fuel + 1, a :: s =>
    if (p :: ps).isPrefixOf (a :: s) then
      rep ++ replaceCore p ps rep fuel (s.drop ps.length)
    else
      a :: replaceCore p ps rep fuel s

/-- Python `s.replace(pat, rep)`.  (All patterns used by the source are
non-empty; an empty pattern is returned unchanged.) -/
def pyReplace (s pat rep : String) : String :=
  match pat.data with
  | [] => s
  | p :: ps => ⟨replaceCore p ps rep.data s.data.length s.data⟩

/-- Python `s.split(sep)` for a one-character separator: splits on every
occurrence and keeps empty pieces (`"".split("/") == [""]`). -/
def splitCore (c : Char) : List Char → List (List Char)
  | [] => [[]]
  | a :: s =>
    let r := splitCore c s
    if a == c then [] :: r
    else
      match r with
      | h :: t => (a :: h) :: t
      | [] => [[a]]

/-- Python `s.split(c)` returning strings. -/
def pySplit (c : Char) (s : String) : List String :=
  (splitCore c s.data).map (fun l => ⟨l⟩)

/-- The whitespace characters stripped by Python `str.strip()` (ASCII range). -/
def pyIsSpace (c : Char) : Bool :=
  c == ' ' || c == '\t' || c == '\n' || c == '\x0d' ||
  c == '\x0b' || c == '\x0c'

/-- Python `s.strip()` (ASCII whitespace). -/
def pyStrip (s : String) : String :=
  ⟨((s.data.dropWhile pyIsSpace).reverse.dropWhile pyIsSpace).reverse⟩

/-- Python `s.lower()` (ASCII). -/
def pyLower (s : String) : String := ⟨s.data.map Char.toLower⟩

/-! ## `posixpath` model (CPython's `posixpath.py`) -/

/-- `os.path.isabs` on POSIX: starts with `/`. -/
def isabs (p : String) : Bool := pyStartswith p "/"

/-- `os.path.join(a, b)` on POSIX. -/
def pyJoin (a b : String) : String :=
  if pyStartswith b "/" then b
  else if a == "" || pyEndswith a "/" then a ++ b
  else a ++ "/" ++ b

/-- `os.path.join(*parts)` for a non-empty list of parts. -/
def pyJoinList : List String → String
  | [] => ""
  | h :: t => t.foldl pyJoin h

/-- One step of `posixpath.normpath`'s component loop. -/
def normpathStep (initialSlashes : Nat) (acc : List String) (comp : String) :
    List String :=
  if comp == "" || comp == "." then acc
  else if comp != ".." || (initialSlashes == 0 && acc.isEmpty) ||
      (!acc.isEmpty && acc.getLast? == some "..") then acc ++ [comp]
  else if !acc.isEmpty then acc.dropLast
  else acc

/-- `posixpath.normpath`. -/
def normpath (p : String) : String :=
  if p == "" then "."
  else
    let initialSlashes : Nat :=
      if pyStartswith p "/" then
        if pyStartswith p "//" && !(pyStartswith p "///") then 2 else 1
      else 0
    let comps := pySplit '/' p
    let newComps := comps.foldl (normpathStep initialSlashes) []
    let joined := String.intercalate "/" newComps
    let out := (⟨List.replicate initialSlashes '/'⟩ : String) ++ joined
    if out == "" then "." else out

/-- `os.path.abspath` with the process working directory passed explicitly. -/
def abspath (cwd p : String) : String :=
  if isabs p then normpath p else normpath (pyJoin cwd p)

/-- `posixpath.basename`: everything after the last `/`. -/
def pyBasename (p : String) : String :=
  match (pySplit '/' p).getLast? with
  | some x => x
  | none => p

/-- `posixpath.dirname`: prefix up to the last `/`, with trailing slashes
stripped unless the head consists only of slashes. -/
def dirname (p : String) : String :=
  let pre := (p.data.reverse.dropWhile (fun c => c != '/')).reverse
  if pre.isEmpty then ""
  else if pre.all (fun c => c == '/') then ⟨pre⟩
  else ⟨(pre.reverse.dropWhile (fun c => c == '/')).reverse⟩

/-- Length of the longest common prefix of two lists
(`genericpath.commonprefix` on component lists). -/
def commonPrefixLen : List String → List String → Nat
  | a :: as, b :: bs => if a == b then commonPrefixLen as bs + 1 else 0
  | _, _ => 0

/-- `posixpath.relpath(path, start)` with the working directory explicit. -/
def relpath (cwd path start : String) : String :=
  let startList := (pySplit '/' (abspath cwd start)).filter (fun x => x != "")
  let pathList := (pySplit '/' (abspath cwd path)).filter (fun x => x != "")
  let i := commonPrefixLen startList pathList
  let relList := List.replicate (startList.length - i) ".." ++ pathList.drop i
  if relList.isEmpty then "." else pyJoinList relList

/-! ## `sandbox.py`: constant tables -/

/-- `DANGEROUS_PATTERNS` from `sandbox.py`.  In the Python source there is no
comma between the literals `'..\\'` and `'/'`, so the two adjacent string
literals concatenate into the single element `"..\/"`; the list therefore
does not contain `"/"` on its own. -/
def DANGEROUS_PATTERNS : List String :=
  ["..", "../", "..\\/",
   "/etc", "/var", "/root", "/home",
   "~", "$HOME", "${HOME}",
   ">", ">>", "2>", "&>", "|",
   "wget", "curl", "nc", "netcat",
   "chmod", "chown",
   "sudo", "su",
   "eval", "exec",
   "telnet", "ssh", "ftp",
   "apt", "brew", "yum", "dnf", "pip",
   "env", "printenv",
   "ps", "ps aux", "top", "htop",
   "find / ", "ls / ", "ls -la /",
   "cat /etc", "less /etc", "more /etc",
   "ifconfig", "ipconfig", "ip addr",
   "netstat", "ss", "lsof", "nmap",
   "host", "dig", "nslookup",
   "iptables", "route", "traceroute"]

/-- `BLOCKED_SYSTEM_PATHS` from `sandbox.py`. -/
def BLOCKED_SYSTEM_PATHS : List String :=
  ["/etc", "/var", "/root", "/home", "/usr", "/opt", "/bin", "/sbin",
   "/lib", "/lib64", "/dev", "/proc", "/sys", "/boot", "/mnt", "/media",
   "/run", "/tmp", "/srv", "/lost+found", "/private"]

/-! ## `sanitize_path` -/

/-- `re.sub(r'^[a-zA-Z]:[\/\\]', '', path)`: strip a Windows drive prefix. -/
def dropDriveLetter (p : String) : String :=
  match p.data with
  | c1 :: ':' :: c2 :: rest =>
    if (c1.isUpper || c1.isLower) && (c2 == '/' || c2 == '\\') then ⟨rest⟩
    else p
  | _ => p

/-- One iteration of the `BLOCKED_SYSTEM_PATHS` loop in `sanitize_path`:
substring occurrences of the directory become `blocked_path`, and a path
equal to the directory's basename gets a `blocked_` prefix. -/
def sanitizeBlockedStep (path sys_dir : String) : String :=
  let p1 := if pyIn sys_dir path then pyReplace path sys_dir "blocked_path"
            else path
  if p1 == pyBasename sys_dir then "blocked_" ++ p1 else p1

/-- `sanitize_path` from `sandbox.py` (the single-segment sanitizer). -/
def sanitize_path (path : String) : String :=
  if path == "" then ""
  else
    let p1 := pyReplace path "\\" "/"
    let p2 := if pyIn "/" p1 then pyBasename p1 else p1
    let p3 := normpath p2
    let p4 : String := ⟨p3.data.dropWhile (fun c => c == '/' || c == '\\')⟩
    let p5 := dropDriveLetter p4
    let p6 := pyReplace p5 ".." "__"
    let p7 := pyReplace p6 "../" ""
    let p8 := pyReplace p7 "..\\" ""
    let p9 := pyReplace p8 "%2e%2e" "__"
    let p10 := pyReplace p9 "%2E%2E" "__"
    let p11 := pyReplace p10 "..%2f" "__"
    let p12 := pyReplace p11 "..%5c" "__"
    let p13 := BLOCKED_SYSTEM_PATHS.foldl sanitizeBlockedStep p12
    pyReplace p13 "/" "_"

/-! ## `get_sandbox`: path resolution -/

/-- Lines 143–149 of `sandbox.py`: for an absolute input, keep only the last
non-empty component of the normalized path. -/
def absLastComponent (fp : String) : String :=
  let parts := (pySplit '/' (pyReplace (normpath fp) "\\" "/")).filter
    (fun p => p != "")
  match parts.getLast? with
  | some x => x
  | none => "unnamed_file"

/-- Lines 152–174 of `sandbox.py`: the hierarchical branch.  Each kept
segment only has leading slashes stripped and `..` replaced by `__`
("basic sanitization"); `sanitize_path` is not applied per segment. -/
def hierPath (f : String) : String :=
  let parts := pySplit '/' (pyReplace (normpath f) "\\" "/")
  let components := parts.foldl
    (fun acc part =>
      if part != "" && part != "." && part != ".." then
        let s1 : String := ⟨part.data.dropWhile (fun c => c == '/' || c == '\\')⟩
        let s2 := pyReplace s1 ".." "__"
        if s2 != "" then acc ++ [s2] else acc
      else acc) []
  if components.isEmpty then "unnamed_file" else pyJoinList components

/-- `is_path_safe` from `sandbox.py`, with the working directory used by
`os.path.abspath` made explicit. -/
def is_path_safe (cwd sandbox_path full_path : String) : Bool :=
  pyStartswith (abspath cwd full_path) (abspath cwd sandbox_path)

/-- Lines 129–199 of `get_sandbox`: turn the chosen sandbox path and the
untrusted `filepath` into the returned path, together with the parent
directory that the code then creates (`none` when it returns early). -/
def resolveParts (cwd sandbox_path : String) (filepath : Option String) :
    String × Option String :=
  match filepath with
  | none => (sandbox_path, none)
  | some fp0 =>
    if fp0 == "" then (sandbox_path, none)
    else if fp0 == "." || pyStrip fp0 == "" then (sandbox_path, none)
    else if fp0 == ".." then (sandbox_path, none)
    else
      let fp := if isabs fp0 then absLastComponent fp0 else fp0
      let safe0 := if pyIn "/" fp || pyIn "\\" fp then hierPath fp
                   else sanitize_path fp
      let safe_path := if safe0 == "" || pyStrip safe0 == "" then "unnamed_file"
                       else safe0
      let full_path := pyJoin sandbox_path safe_path
      if !(is_path_safe cwd sandbox_path full_path) then (sandbox_path, none)
      else (full_path, some (dirname full_path))

/-! ## `get_sandbox`: sandbox selection and registry state -/

/-- The process-wide mutable state of `sandbox.py`: the `current_sandbox`
pointer, the `sandboxes` thread registry, and which paths exist on disk. -/
structure SbState where
  current : Option String
  sandboxes : List (String × String)
  onDisk : String → Bool

/-- Python dict lookup on the registry. -/
def lookupSb (m : List (String × String)) (t : String) : Option String :=
  (m.find? (fun kv => kv.1 == t)).map (fun kv => kv.2)

/-- Python dict assignment on the registry (replace or append). -/
def setSb (m : List (String × String)) (t v : String) :
    List (String × String) :=
  if (m.find? (fun kv => kv.1 == t)).isSome then
    m.map (fun kv => if kv.1 == t then (kv.1, v) else kv)
  else m ++ [(t, v)]

/-- `if current_sandbox and os.path.exists(current_sandbox)` (truthiness of
the string included). -/
def currentOk (st : SbState) : Bool :=
  match st.current with
  | some c => c != "" && st.onDisk c
  | none => false

/-- `sandboxes[thread_id]` when `thread_id` is truthy and present. -/
def threadEntry (st : SbState) (tid : Option String) : Option String :=
  match tid with
  | some t => if t != "" then lookupSb st.sandboxes t else none
  | none => none

/-- `thread_id and thread_id in sandboxes and os.path.exists(sandboxes[thread_id])`. -/
def threadOk (st : SbState) (tid : Option String) : Bool :=
  match threadEntry st tid with
  | some p => st.onDisk p
  | none => false

/-- Disk effect of `shutil.rmtree(sp)` (if present) followed by
`os.makedirs(sp)`: `sp` exists, its descendants are gone, missing ancestors
are created. -/
def freshDirEffect (disk : String → Bool) (sp : String) : String → Bool :=
  fun p =>
    if p == sp then true
    else if pyStartswith p (sp ++ "/") then false
    else if pyStartswith sp (p ++ "/") then true
    else disk p

/-- Disk effect of `os.makedirs(dir, exist_ok=True)`: `dir` and its missing
ancestors are created; nothing is removed. -/
def mkdirsEffect (disk : String → Bool) (dir : String) : String → Bool :=
  fun p => disk p || p == dir || pyStartswith dir (p ++ "/")

/-- `f"sandbox_{thread_id or 'tmp'}_{sandbox_id}"` with the fresh
`sandbox_id` supplied as `u`. -/
def newSandboxName (tid : Option String) (u : String) : String :=
  let t := match tid with
           | some t => if t == "" then "tmp" else t
           | none => "tmp"
  "sandbox_" ++ t ++ "_" ++ u

/-- Lines 101–127 of `get_sandbox`: pick the sandbox directory.  The current
sandbox wins if set and on disk; otherwise the thread's registered sandbox
if on disk; otherwise a fresh directory is created (wiping any stale tree at
the same path) and registered. -/
def chooseSandbox (baseDir : String) (st : SbState) (tid : Option String)
    (u : String) : String × SbState :=
  if currentOk st then (st.current.getD "", st)
  else if threadOk st tid then
    let p := (threadEntry st tid).getD ""
    (p, { st with current := some p })
  else
    let sp := pyJoin baseDir (newSandboxName tid u)
    (sp, { current := some sp,
           sandboxes := match tid with
                        | some t => if t != "" then setSb st.sandboxes t sp
                                    else st.sandboxes
                        | none => st.sandboxes,
           onDisk := freshDirEffect st.onDisk sp })

/-- Lines 191–197 of `get_sandbox`: create the parent directory of the
result if needed (creation failures are swallowed in the source). -/
def applyMk (st : SbState) (parentOpt : Option String) : SbState :=
  match parentOpt with
  | none => st
  | some parent =>
    if parent != "" && !(st.onDisk parent) then
      { st with onDisk := mkdirsEffect st.onDisk parent }
    else st

/-- `get_sandbox` from `sandbox.py`: select the sandbox, resolve the
untrusted `filepath` inside it, and perform the directory-creation side
effects.  `baseDir` is `SANDBOX_BASE_DIR`, `cwd` the process working
directory, `u` the fresh uuid fragment. -/
def get_sandbox (baseDir cwd : String) (st : SbState)
    (thread_id filepath : Option String) (u : String) : String × SbState :=
  let pick := chooseSandbox baseDir st thread_id u
  let rp := resolveParts cwd pick.1 filepath
  (rp.1, applyMk pick.2 rp.2)

/-! ## `validate_command` and its regular expressions

The five `re.search` calls of `validate_command` all have the shape
`(^|[^\w])BODY`: a match either starts at the beginning of the string or is
preceded by a non-word character.  They are modelled by trying a decidable
body predicate at the start and after every non-word character. -/

/-- Python `\w` (ASCII range): letters, digits, underscore. -/
def isWordChar (c : Char) : Bool := c.isAlphanum || c == '_'

/-- The suffixes of `l` that start right after a non-word character. -/
def boundarySuffixes : List Char → List (List Char)
  | [] => []
  | c :: rest =>
    (if isWordChar c then [] else [rest]) ++ boundarySuffixes rest

/-- `re.search(r'(^|[^\w])BODY', s)` for a body predicate `P`. -/
def reSearchBound (P : List Char → Bool) (s : String) : Bool :=
  P s.data || (boundarySuffixes s.data).any P

/-- `\s+[^\s]+`: at least one whitespace character, then at least one
non-whitespace character. -/
def reWsArg (t : List Char) : Bool :=
  match t with
  | [] => false
  | c :: _ => pyIsSpace c && !(t.dropWhile pyIsSpace).isEmpty

/-- Body of `r'(^|[^\w])cd\s+[^\s]+'`. -/
def reCdBody : List Char → Bool
  | 'c' :: 'd' :: rest => reWsArg rest
  | _ => false

/-- `re.search(r'(^|[^\w])cd\s+[^\s]+', command)`. -/
def reCd (s : String) : Bool := reSearchBound reCdBody s

/-- Body of `r'(^|[^\w])(env|printenv)'`. -/
def reEnvBody (t : List Char) : Bool :=
  "env".data.isPrefixOf t || "printenv".data.isPrefixOf t

/-- `re.search(r'(^|[^\w])(env|printenv)', command)`. -/
def reEnv (s : String) : Bool := reSearchBound reEnvBody s

/-- `\s+[^\s]*\.\.`: at least one whitespace character, then a literal `..`
inside the following run of non-whitespace characters. -/
def reWsDotDot (t : List Char) : Bool :=
  match t with
  | [] => false
  | c :: _ =>
    pyIsSpace c &&
      containsSubL "..".data
        ((t.dropWhile pyIsSpace).takeWhile (fun ch => !pyIsSpace ch))

/-- Body of `r'(^|[^\w])(ls|dir|find)\s+[^\s]*\.\.'`. -/
def reLsBody (t : List Char) : Bool :=
  ("ls".data.isPrefixOf t && reWsDotDot (t.drop 2)) ||
  ("dir".data.isPrefixOf t && reWsDotDot (t.drop 3)) ||
  ("find".data.isPrefixOf t && reWsDotDot (t.drop 4))

/-- `re.search(r'(^|[^\w])(ls|dir|find)\s+[^\s]*\.\.', command)`. -/
def reLsTraversal (s : String) : Bool := reSearchBound reLsBody s

/-- Alternatives of the network-access regex. -/
def networkWords : List String :=
  ["curl", "wget", "nc", "netcat", "telnet", "ssh", "ftp", "ifconfig",
   "ipconfig", "netstat", "ping", "host", "dig"]

/-- Body of the network regex (no trailing boundary in the source). -/
def reNetworkBody (t : List Char) : Bool :=
  networkWords.any (fun w => w.data.isPrefixOf t)

/-- `re.search(r'(^|[^\w])(curl|wget|nc|netcat|telnet|ssh|ftp|ifconfig|ipconfig|netstat|ping|host|dig)', command)`. -/
def reNetwork (s : String) : Bool := reSearchBound reNetworkBody s

/-- Alternatives of the process-management regex. -/
def processWords : List String :=
  ["ps", "top", "htop", "pgrep", "pkill", "kill"]

/-- `\b` after a word: end of string or a non-word character. -/
def wordBoundaryAfter : List Char → Bool
  | [] => true
  | c :: _ => !isWordChar c

/-- Body of `r'(^|[^\w])(ps|top|htop|pgrep|pkill|kill)\b'`. -/
def reProcessBody (t : List Char) : Bool :=
  processWords.any
    (fun w => w.data.isPrefixOf t && wordBoundaryAfter (t.drop w.length))

/-- `re.search(r'(^|[^\w])(ps|top|htop|pgrep|pkill|kill)\b', command)`. -/
def reProcess (s : String) : Bool := reSearchBound reProcessBody s

/-- `validate_command` from `sandbox.py`.  A raised `ValueError` is the
`Except.error` case, carrying the exact message. -/
def validate_command (command : String) : Except String Bool :=
  let cmd_lower := pyLower command
  match DANGEROUS_PATTERNS.find? (fun pat => pyIn pat command) with
  | some pat =>
    .error ("Command security validation failed: Command contains dangerous pattern: "
      ++ pat)
  | none =>
  if ["ps ", "ps aux", "top ", "htop"].any (fun p => pyStartswith cmd_lower p) then
    .error "Command security validation failed: Process inspection commands are restricted"
  else
  match BLOCKED_SYSTEM_PATHS.find? (fun p => pyIn p command) with
  | some p =>
    .error ("Command security validation failed: Access to system path " ++ p
      ++ " is not allowed")
  | none =>
  if reCd command then
    .error "Command security validation failed: Changing directories is restricted"
  else if reEnv command then
    .error "Command security validation failed: Environment inspection is restricted"
  else if reLsTraversal command then
    .error "Command security validation failed: Navigating outside sandbox is restricted"
  else if reNetwork command then
    .error "Command security validation failed: Network access commands are restricted"
  else if reProcess command then
    .error "Command security validation failed: Process management commands are restricted"
  else .ok true

/-! ## Python values and `normalize_response_paths` -/

/-- Python values as they occur in the tool-result records: strings,
booleans, integers, `None`, dicts (ordered association lists) and lists. -/
inductive PyVal where
  | str (s : String)
  | bool (b : Bool)
  | int (n : Int)
  | pynull
  | dict (d : List (String × PyVal))
  | list (l : List PyVal)

mutual

/-- Structural size of a Python value, used as recursion fuel below. -/
def pySize : PyVal → Nat
  | .str _ => 1
  | .bool _ => 1
  | .int _ => 1
  | .pynull => 1
  | .dict d => pySizeEntries d + 1
  | .list l => pySizeItems l + 1

/-- Structural size of a dict's entries. -/
def pySizeEntries : List (String × PyVal) → Nat
  | [] => 0
  | (_, v) :: rest => pySize v + pySizeEntries rest

/-- Structural size of a list's items. -/
def pySizeItems : List PyVal → Nat
  | [] => 0
  | v :: rest => pySize v + pySizeItems rest

end

/-- Python `d[k]` lookup (first binding wins, as in a dict). -/
def dictGet (d : List (String × PyVal)) (k : String) : Option PyVal :=
  (d.find? (fun kv => kv.1 == k)).map (fun kv => kv.2)

/-- Python `d[k] = v`: replace in place, preserving insertion order;
append when the key is new. -/
def dictSet (d : List (String × PyVal)) (k : String) (v : PyVal) :
    List (String × PyVal) :=
  if (d.find? (fun kv => kv.1 == k)).isSome then
    d.map (fun kv => if kv.1 == k then (kv.1, v) else kv)
  else d ++ [(k, v)]

/-- The `path_keys` list of `normalize_response_paths`. -/
def path_keys : List String :=
  ["filepath", "directory", "path", "target_dir", "cwd", "file_path"]

/-- One iteration of the `path_keys` loop: a non-empty string value whose
absolute form is under the sandbox is rewritten to its sandbox-relative
form (empty string when equal to the root). -/
def processPathKey (cwd sandbox_path : String)
    (d : List (String × PyVal)) (key : String) : List (String × PyVal) :=
  match dictGet d key with
  | some (.str s) =>
    if s != "" then
      let abs_path := abspath cwd s
      if pyStartswith abs_path sandbox_path then
        let rel := relpath cwd abs_path sandbox_path
        dictSet d key (.str (if rel != "." then rel else ""))
      else d
    else d
  | _ => d

/-- The `stdout` / `stderr` / `content` handling: replace literal
occurrences of the sandbox path by `.` in a non-empty string value.
(On a truthy non-string value CPython would raise an `AttributeError`;
no caller in the source stores a non-string under these keys.) -/
def processTextKey (sandbox_path : String)
    (d : List (String × PyVal)) (key : String) : List (String × PyVal) :=
  match dictGet d key with
  | some (.str s) =>
    if s != "" then dictSet d key (.str (pyReplace s sandbox_path "."))
    else d
  | _ => d

/-- The recursive body of `normalize_response_paths` for an active sandbox
path.  The recursion into nested dicts and lists is driven by a fuel
argument; `normalize_response_paths` supplies `pySize` of the value, which
dominates its nesting depth, so the fuel never runs out on the values the
source manipulates. -/
def normCore (cwd sandbox_path : String) : Nat → PyVal → PyVal
  | 0, v => v
  | fuel + 1, v =>
    match v with
    | .dict d =>
      let r1 := path_keys.foldl (processPathKey cwd sandbox_path) d
      let r2 := processTextKey sandbox_path r1 "stdout"
      let r3 := processTextKey sandbox_path r2 "stderr"
      let r4 := processTextKey sandbox_path r3 "content"
      let r5 := r4.map (fun kv =>
        match kv.2 with
        | .dict d2 => (kv.1, normCore cwd sandbox_path fuel (.dict d2))
        | .list items =>
          (kv.1, .list (items.map (fun item =>
            match item with
            | .dict d3 => normCore cwd sandbox_path fuel (.dict d3)
            | x => x)))
        | _ => kv)
      .dict r5
    | v => v

/-- `normalize_response_paths` from `sandbox.py`: the identity on non-dict
values and whenever no sandbox is active (`current_sandbox` is `None` or
empty); otherwise it rewrites path-bearing and text fields and recurses
through nested dicts and lists, building new dicts at every level. -/
def normalize_response_paths (cwd : String) (current_sandbox : Option String)
    (response : PyVal) : PyVal :=
  match response with
  | .dict d =>
    match current_sandbox with
    | none => .dict d
    | some sandbox_path =>
      if sandbox_path == "" then .dict d
      else normCore cwd sandbox_path (pySize (.dict d)) (.dict d)
  | v => v

/-! ## `local_tools.execute_command` -/

/-- The outcome of calling a Python function: a returned value or a raised
exception (with its message). -/
inductive PyOutcome (α : Type) where
  | returned (a : α)
  | raised (msg : String)

/-- The exceptions the subprocess-running remainder of `execute_command`
(lines 512–590 of `local_tools.py`) can raise into its `try` block. -/
inductive SubprocExc where
  | timeout
  | valueError (msg : String)
  | other (msg : String)

/-- The `blocked_commands` list local to `execute_command`. -/
def blocked_commands : List String :=
  ["ps", "top", "htop", "netstat", "ifconfig", "ping",
   "curl", "wget", "cat /etc", "find /", "ls /", "uname -a"]

/-- `execute_command` from `local_tools.py`.  The remainder after
validation (cwd resolution, the Python-script special case, and the
subprocess call) is the oracle `runner`; whatever record it produces or
exception it raises, the surrounding `try`/`except` blocks of the source
turn every failure into a *returned* record — in particular a rejection by
`validate_command` is caught by the inner `except ValueError` and returned
as a failure record, not raised. -/
def execute_command
    (runner : String → Option String → Except SubprocExc PyVal)
    (command : String) (cwd : Option String) : PyOutcome PyVal :=
  match blocked_commands.find?
      (fun b => pyStartswith command b || pyIn (" " ++ b) command) with
  | some b =>
    .returned (.dict [("success", .bool false),
      ("error", .str ("Security error: Command '" ++ b ++ "' is not allowed")),
      ("command", .str command)])
  | none =>
  match BLOCKED_SYSTEM_PATHS.find? (fun p => pyIn p command) with
  | some p =>
    .returned (.dict [("success", .bool false),
      ("error", .str ("Security error: Access to " ++ p ++ " is restricted")),
      ("command", .str command)])
  | none =>
  match validate_command command with
  | .error e =>
    .returned (.dict [("success", .bool false), ("error", .str e),
      ("command", .str command)])
  | .ok _ =>
  match runner command cwd with
  | .ok r => .returned r
  | .error .timeout =>
    .returned (.dict [("success", .bool false),
      ("error", .str "Command timed out after 30 seconds"),
      ("command", .str command)])
  | .error (.valueError m) =>
    .returned (.dict [("success", .bool false), ("error", .str m),
      ("command", .str command)])
  | .error (.other m) =>
    .returned (.dict [("success", .bool false),
      ("error", .str ("Error executing command: " ++ m)),
      ("command", .str command)])

/-! ## `local_tools.git_clone`

The filesystem is a list of existing paths; the external `git` process is
an oracle.  `gitCloneProc` is the standard behavior of
`git clone --depth 1 <url> <dir>` (external to the repository): it refuses
to clone into an existing non-empty directory, and on success creates the
target with a `.git` subdirectory and the repository's files; it never
removes pre-existing entries. -/

/-- Result of the external `git clone` process. -/
structure GitProcResult where
  timedOut : Bool
  retOk : Bool
  stdout : String
  stderr : String
  fs : List String

/-- Model of the external `git clone --depth 1` process (see above). -/
def gitCloneProc (repoFiles : List String) (fs : List String)
    (_url cloneDir : String) : GitProcResult :=
  if fs.any (fun p => pyStartswith p (cloneDir ++ "/")) then
    { timedOut := false, retOk := false, stdout := "",
      stderr := "fatal: destination path already exists and is not an empty directory",
      fs := fs }
  else
    { timedOut := false, retOk := true, stdout := "", stderr := "",
      fs := fs ++ [cloneDir, pyJoin cloneDir ".git"]
        ++ repoFiles.map (fun f => pyJoin cloneDir f) }

/-- `git_clone` from `local_tools.py`.  (`os.makedirs` is modelled as
adding the target itself; intermediate ancestors play no role here.  The
outer `except Exception` path is unreachable in the model because the
modelled operations do not raise.) -/
def git_clone (gitProc : List String → String → String → GitProcResult)
    (fs : List String) (repo_url : String) (target_dir : Option String) :
    PyVal × List String :=
  let fs1 := match target_dir with
             | some t => if t != "" && !(fs.contains t) then fs ++ [t] else fs
             | none => fs
  let repo_name0 := ((pySplit '/' repo_url).getLast?).getD repo_url
  let repo_name :=
    if pyEndswith repo_name0 ".git" then
      (⟨repo_name0.data.take (repo_name0.data.length - 4)⟩ : String)
    else repo_name0
  let clone_dir := match target_dir with
                   | some t => if t != "" then t else repo_name
                   | none => repo_name
  let res := gitProc fs1 repo_url clone_dir
  let outp :=
    if res.timedOut then (false, "", "Git clone timed out after 60 seconds")
    else (res.retOk, res.stdout, res.stderr)
  let fs2 := if res.timedOut then fs1 else res.fs
  let checked :=
    if outp.1 && !(fs2.contains (pyJoin clone_dir ".git")) then
      (false, outp.2.2 ++ "\nClone appears to have failed: .git directory not found")
    else (outp.1, outp.2.2)
  if checked.1 then
    (.dict [("success", .bool true),
      ("message", .str ("Repository cloned successfully to " ++ pyBasename clone_dir)),
      ("stdout", .str outp.2.1),
      ("target_dir", .str (pyBasename clone_dir))], fs2)
  else
    let error_message :=
      if pyIn "could not resolve host" (pyLower checked.2) then
        "Network error: Could not resolve the repository host."
      else if pyIn "authentication failed" (pyLower checked.2) then
        "Authentication error: Private repository requires authentication."
      else if pyIn "repository not found" (pyLower checked.2) then
        "Repository not found. Check the URL and try again."
      else checked.2
    (.dict [("success", .bool false),
      ("error", .str error_message),
      ("stdout", .str outp.2.1),
      ("stderr", .str checked.2),
      ("target_dir", .str (pyBasename clone_dir))], fs2)

/-! ## Helper lemmas -/

theorem isPrefixOf_self (l : List Char) : l.isPrefixOf l = true := by
  induction l with
  | nil => rfl
  | cons a t ih => simp [List.isPrefixOf, ih]

theorem pyStartswith_self (s : String) : pyStartswith s s = true :=
  isPrefixOf_self s.data

/-- The final containment check of `get_sandbox`, for an arbitrary
candidate `full`: the kept path is either `full` itself when the check
passed, or the sandbox root. -/
theorem finalStep_confined (cwd sp full : String) :
    pyStartswith
        (abspath cwd ((if !(is_path_safe cwd sp full) then
          (sp, (none : Option String)) else (full, some (dirname full))).1))
        (abspath cwd sp) = true
    ∧ (((if !(is_path_safe cwd sp full) then (sp, (none : Option String))
          else (full, some (dirname full))).1) ≠ sp →
        is_path_safe cwd sp
          ((if !(is_path_safe cwd sp full) then (sp, (none : Option String))
            else (full, some (dirname full))).1) = true) := by
  by_cases hs : is_path_safe cwd sp full = true
  · rw [hs]
    simp only [Bool.not_true, Bool.false_eq_true, if_false]
    exact ⟨hs, fun _ => hs⟩
  · rw [Bool.not_eq_true] at hs
    rw [hs]
    simp only [Bool.not_false, if_true]
    exact ⟨pyStartswith_self _, fun h => absurd rfl h⟩

/-- The result of the filepath-resolution part of `get_sandbox` is either
prefixed by the chosen sandbox (after canonicalization) — because that is
exactly what the final `is_path_safe` check enforces — or it is the sandbox
itself. -/
theorem resolveParts_confined (cwd sp : String) (fp : Option String) :
    pyStartswith (abspath cwd (resolveParts cwd sp fp).1) (abspath cwd sp)
      = true
    ∧ ((resolveParts cwd sp fp).1 ≠ sp →
       is_path_safe cwd sp (resolveParts cwd sp fp).1 = true) := by
  have hrefl : pyStartswith (abspath cwd sp) (abspath cwd sp) = true :=
    pyStartswith_self _
  unfold resolveParts
  cases fp with
  | none => exact ⟨hrefl, fun h => absurd rfl h⟩
  | some f =>
    dsimp only
    split
    · exact ⟨hrefl, fun h => absurd rfl h⟩
    split
    · exact ⟨hrefl, fun h => absurd rfl h⟩
    split
    · exact ⟨hrefl, fun h => absurd rfl h⟩
    exact finalStep_confined cwd sp _

/-- After sandbox selection the current pointer holds the chosen sandbox. -/
theorem chooseSandbox_current (baseDir : String) (st : SbState)
    (tid : Option String) (u : String) :
    (chooseSandbox baseDir st tid u).2.current
      = some (chooseSandbox baseDir st tid u).1 := by
  unfold chooseSandbox
  split
  · rename_i h
    unfold currentOk at h
    cases hc : st.current with
    | none => rw [hc] at h; exact absurd h (by simp)
    | some c => simp [hc]
  · split
    · rfl
    · rfl

/-- After sandbox selection the chosen sandbox exists on disk. -/
theorem chooseSandbox_onDisk (baseDir : String) (st : SbState)
    (tid : Option String) (u : String) :
    (chooseSandbox baseDir st tid u).2.onDisk (chooseSandbox baseDir st tid u).1
      = true := by
  unfold chooseSandbox
  split
  · rename_i h
    unfold currentOk at h
    cases hc : st.current with
    | none => rw [hc] at h; exact absurd h (by simp)
    | some c =>
      rw [hc] at h
      simp only [Bool.and_eq_true] at h
      simp [hc, h.2]
  · split
    · rename_i h2
      unfold threadOk at h2
      cases he : threadEntry st tid with
      | none => rw [he] at h2; exact absurd h2 (by simp)
      | some p => rw [he] at h2; simpa [he] using h2
    · simp [freshDirEffect]

/-- `applyMk` never changes the registry or the current pointer, and only
adds directories. -/
theorem applyMk_frame (st : SbState) (parentOpt : Option String) :
    (applyMk st parentOpt).current = st.current
    ∧ (applyMk st parentOpt).sandboxes = st.sandboxes
    ∧ ∀ q, st.onDisk q = true → (applyMk st parentOpt).onDisk q = true := by
  cases parentOpt with
  | none => exact ⟨rfl, rfl, fun q h => h⟩
  | some parent =>
    refine ⟨?_, ?_, fun q h => ?_⟩
    · simp only [applyMk]; split <;> rfl
    · simp only [applyMk]; split <;> rfl
    · simp only [applyMk]
      split
      · simp [mkdirsEffect, h]
      · exact h

theorem pyJoin_ne_empty (a b : String) (hb : b.data ≠ []) :
    pyJoin a b ≠ "" := by
  unfold pyJoin
  split
  · intro he; exact hb (by rw [he])
  · split
    · intro he
      have hd := congrArg String.data he
      rw [String.data_append] at hd
      exact hb (List.append_eq_nil.mp hd).2
    · intro he
      have hd := congrArg String.data he
      rw [String.data_append] at hd
      exact hb (List.append_eq_nil.mp hd).2

theorem newSandboxName_ne_nil (tid : Option String) (u : String) :
    (newSandboxName tid u).data ≠ [] := by
  have h8 : ("sandbox_" : String).data.length = 8 := rfl
  unfold newSandboxName
  intro h
  have hl := congrArg List.length h
  rw [String.data_append, String.data_append, String.data_append] at hl
  rw [List.length_append, List.length_append, List.length_append, h8] at hl
  simp at hl

/-- When sandbox selection yields the empty string, the call went through
the thread-registry branch with an empty registered path; the state change
is exactly setting the current pointer. -/
theorem chooseSandbox_empty (baseDir : String) (st : SbState)
    (tid : Option String) (u : String)
    (h : (chooseSandbox baseDir st tid u).1 = "") :
    chooseSandbox baseDir st tid u = ("", { st with current := some "" })
    ∧ threadEntry st tid = some "" ∧ st.onDisk "" = true := by
  unfold chooseSandbox at h ⊢
  by_cases hcur : currentOk st = true
  · rw [if_pos hcur] at h
    unfold currentOk at hcur
    cases hc : st.current with
    | none => rw [hc] at hcur; exact absurd hcur (by simp)
    | some c =>
      rw [hc] at hcur
      simp only [Bool.and_eq_true, bne_iff_ne, ne_eq] at hcur
      rw [hc] at h
      exact absurd h hcur.1
  · rw [if_neg hcur] at h ⊢
    by_cases hok2 : threadOk st tid = true
    · rw [if_pos hok2] at h ⊢
      dsimp only at h ⊢
      unfold threadOk at hok2
      cases he : threadEntry st tid with
      | none => rw [he] at hok2; exact absurd hok2 (by simp)
      | some p =>
        rw [he] at hok2 h
        simp only [Option.getD_some] at h
        subst h
        exact ⟨rfl, rfl, hok2⟩
    · rw [if_neg hok2] at h
      exact absurd h
        (pyJoin_ne_empty baseDir (newSandboxName tid u)
          (newSandboxName_ne_nil tid u))

/-- The current pointer takes priority in sandbox selection: whenever it is
set, non-empty, and on disk, it is the chosen sandbox — regardless of the
thread identifier. -/
theorem chooseSandbox_current_wins (baseDir : String) (st : SbState)
    (tid : Option String) (u : String) (c : String)
    (h1 : st.current = some c) (h2 : c ≠ "") (h3 : st.onDisk c = true) :
    (chooseSandbox baseDir st tid u).1 = c := by
  unfold chooseSandbox
  have hok : currentOk st = true := by
    unfold currentOk; rw [h1]; simp [h2, h3]
  rw [if_pos hok, h1]
  rfl

/-! ## Claim theorems -/

set_option maxRecDepth 40000

/-- C1: for every thread identifier and untrusted path string given to
`get_sandbox`, the absolute form of the returned path is prefixed by the
absolute form of the chosen sandbox root; moreover the returned path can
differ from the sandbox root only when it passed the final `is_path_safe`
containment check (otherwise the root itself is returned). -/
theorem get_sandbox_contained_in_sandbox (baseDir cwd : String)
    (st : SbState) (thread_id filepath : Option String) (u : String) :
    pyStartswith
        (abspath cwd (get_sandbox baseDir cwd st thread_id filepath u).1)
        (abspath cwd (chooseSandbox baseDir st thread_id u).1) = true
    ∧ ((get_sandbox baseDir cwd st thread_id filepath u).1
          ≠ (chooseSandbox baseDir st thread_id u).1 →
        is_path_safe cwd (chooseSandbox baseDir st thread_id u).1
          (get_sandbox baseDir cwd st thread_id filepath u).1 = true) := by
  have h := resolveParts_confined cwd (chooseSandbox baseDir st thread_id u).1
    filepath
  exact ⟨h.1, fun hne => h.2 hne⟩

/-- Witness for C1 at a concrete state and path: the returned path differs
from the root, so by the theorem it passed the containment check. -/
theorem get_sandbox_contained_witness :
    is_path_safe "/cwd"
      (chooseSandbox "/base"
        ⟨some "/sb", [], fun p => p == "/sb"⟩ none "u").1
      (get_sandbox "/base" "/cwd"
        ⟨some "/sb", [], fun p => p == "/sb"⟩ none (some "f.txt") "u").1
      = true :=
  (get_sandbox_contained_in_sandbox "/base" "/cwd"
    ⟨some "/sb", [], fun p => p == "/sb"⟩ none (some "f.txt") "u").2
    (by decide)

/-- C2: the spec's validator examples, evaluated on the code.  Because of
the missing comma in `DANGEROUS_PATTERNS`, the list does not contain `"/"`,
so `validate_command "rm -rf / "` is *allowed* — contradicting the claimed
rejection; the other four examples behave as claimed (with `"cd .."`
rejected by the `".."` traversal pattern). -/
theorem validate_command_spec_examples :
    validate_command "rm -rf / " = .ok true
    ∧ validate_command "curl http://x"
        = .error "Command security validation failed: Command contains dangerous pattern: curl"
    ∧ validate_command "sudo ls"
        = .error "Command security validation failed: Command contains dangerous pattern: sudo"
    ∧ validate_command "cd .."
        = .error "Command security validation failed: Command contains dangerous pattern: .."
    ∧ validate_command "echo hello" = .ok true :=
  ⟨rfl, rfl, rfl, rfl, rfl⟩

/-- C4 counterexample: with a current sandbox `/sb/cur` set and on disk,
and thread `"t"` registered to `/sb/t` which also exists on disk,
`get_sandbox` resolves under `/sb/cur` — not under the thread's own sandbox
— even though the thread identifier is supplied. -/
theorem get_sandbox_ignores_thread_counterexample :
    lookupSb [("t", "/sb/t")] "t" = some "/sb/t"
    ∧ (SbState.mk (some "/sb/cur") [("t", "/sb/t")]
        (fun p => p == "/sb/cur" || p == "/sb/t")).onDisk "/sb/t" = true
    ∧ (get_sandbox "/base" "/cwd"
        ⟨some "/sb/cur", [("t", "/sb/t")],
          fun p => p == "/sb/cur" || p == "/sb/t"⟩
        (some "t") (some "f.txt") "u1").1 = "/sb/cur/f.txt"
    ∧ pyStartswith "/sb/cur/f.txt" "/sb/t" = false := by
  refine ⟨rfl, by decide, by decide, by decide⟩

/-- C4 amended: the process-wide current sandbox takes priority whenever it
is set, non-empty and on disk — even when a thread identifier with a
registered, existing sandbox is supplied; the returned path is then
confined to the current sandbox.  The thread's own sandbox is used only
when no live current sandbox exists. -/
theorem current_sandbox_priority (baseDir cwd : String) (st : SbState)
    (tid fp : Option String) (u : String) (c : String)
    (h1 : st.current = some c) (h2 : c ≠ "") (h3 : st.onDisk c = true) :
    (chooseSandbox baseDir st tid u).1 = c
    ∧ pyStartswith (abspath cwd (get_sandbox baseDir cwd st tid fp u).1)
        (abspath cwd c) = true := by
  have hc := chooseSandbox_current_wins baseDir st tid u c h1 h2 h3
  refine ⟨hc, ?_⟩
  show pyStartswith
    (abspath cwd (resolveParts cwd (chooseSandbox baseDir st tid u).1 fp).1)
    (abspath cwd c) = true
  rw [hc]
  exact (resolveParts_confined cwd c fp).1

/-- Witness for C4's amended theorem at the counterexample state. -/
theorem current_sandbox_priority_witness :
    (chooseSandbox "/base"
      ⟨some "/sb/cur", [("t", "/sb/t")],
        fun p => p == "/sb/cur" || p == "/sb/t"⟩ (some "t") "u1").1
      = "/sb/cur"
    ∧ pyStartswith
        (abspath "/cwd" (get_sandbox "/base" "/cwd"
          ⟨some "/sb/cur", [("t", "/sb/t")],
            fun p => p == "/sb/cur" || p == "/sb/t"⟩
          (some "t") (some "f.txt") "u1").1)
        (abspath "/cwd" "/sb/cur") = true :=
  current_sandbox_priority "/base" "/cwd"
    ⟨some "/sb/cur", [("t", "/sb/t")],
      fun p => p == "/sb/cur" || p == "/sb/t"⟩
    (some "t") (some "f.txt") "u1" "/sb/cur" rfl (by decide) (by decide)

/-- C6 counterexample: the hierarchical input `a/etc` resolves to
`<root>/a/etc` — the segment `etc`, which equals the basename of the
blocked directory `/etc`, is *not* prefixed with `blocked_` — while the
same segment as a single-segment input becomes `blocked_etc`. -/
theorem hier_segment_not_blocked_counterexample :
    (get_sandbox "/base" "/cwd" ⟨some "/sb", [], fun p => p == "/sb"⟩
        none (some "a/etc") "u").1 = "/sb/a/etc"
    ∧ pyIn "blocked_" "/sb/a/etc" = false
    ∧ sanitize_path "etc" = "blocked_etc" := by
  refine ⟨by decide, by decide, by decide⟩

/-- C6 amended: per-segment sanitization in the hierarchical branch only
strips leading slashes and replaces `..` by `__`; the `blocked_` prefixing
of system-directory basenames applies only to single-segment inputs.  For
every entry of the blocklist, the basename passes through a hierarchical
path unchanged while the same string alone is `blocked_`-prefixed. -/
theorem blocked_prefix_only_single_segment (d : String)
    (hd : d ∈ BLOCKED_SYSTEM_PATHS) :
    sanitize_path (pyBasename d) = "blocked_" ++ pyBasename d
    ∧ hierPath ("a/" ++ pyBasename d) = "a/" ++ pyBasename d := by
  fin_cases hd <;> exact ⟨by decide, by decide⟩

/-- Witness for C6's amended theorem at the entry `/etc`. -/
theorem blocked_prefix_only_single_segment_witness :
    sanitize_path (pyBasename "/etc") = "blocked_" ++ pyBasename "/etc"
    ∧ hierPath ("a/" ++ pyBasename "/etc") = "a/" ++ pyBasename "/etc" :=
  blocked_prefix_only_single_segment "/etc" (by decide)

/-- C7: the Response Redactor on a record whose `filepath` is
`<root>/notes.txt` and whose `content` mentions the same path, with that
sandbox current, yields `filepath = "notes.txt"` and
`content = "path is ./notes.txt"`; a path-bearing field equal to the root
itself becomes the empty string. -/
theorem normalize_response_paths_example :
    normalize_response_paths "/cwd" (some "/app/sandboxes/sb_1")
        (.dict [("filepath", .str "/app/sandboxes/sb_1/notes.txt"),
                ("content", .str "path is /app/sandboxes/sb_1/notes.txt")])
      = .dict [("filepath", .str "notes.txt"),
               ("content", .str "path is ./notes.txt")]
    ∧ normalize_response_paths "/cwd" (some "/app/sandboxes/sb_1")
        (.dict [("path", .str "/app/sandboxes/sb_1")])
      = .dict [("path", .str "")] :=
  ⟨rfl, rfl⟩

/-- C9: the dangerous-pattern list and the rejection regexes are matched
against the original-case command, so upper-cased variants of denylisted
commands are allowed; only the process-inspection prefix check uses the
lowercased copy (so `PS aux` is still rejected). -/
theorem validate_command_case_sensitivity :
    validate_command "CURL http://x" = .ok true
    ∧ validate_command "SUDO ls" = .ok true
    ∧ validate_command "sudo ls"
        = .error "Command security validation failed: Command contains dangerous pattern: sudo"
    ∧ validate_command "PS aux"
        = .error "Command security validation failed: Process inspection commands are restricted" :=
  ⟨rfl, rfl, rfl, rfl⟩

/-- C3 counterexample: the validator rejects `sudo ls`, yet
`execute_command` does not raise — it returns a failure record carrying the
validator's message (the inner `except ValueError` of the source catches
the rejection). -/
theorem execute_command_returns_on_rejection :
    validate_command "sudo ls"
      = .error "Command security validation failed: Command contains dangerous pattern: sudo"
    ∧ execute_command (fun _ _ => .ok (.dict [])) "sudo ls" none
      = .returned (.dict [("success", .bool false),
          ("error", .str "Command security validation failed: Command contains dangerous pattern: sudo"),
          ("command", .str "sudo ls")]) :=
  ⟨rfl, rfl⟩

/-- C3 amended: `execute_command` never raises — every outcome, for any
behavior of the subprocess remainder, is a returned record; and when the
command passes the two local blocklists but is rejected by
`validate_command`, the returned record is a failure record whose `error`
field is exactly the validator's pattern-naming message. -/
theorem execute_command_never_raises
    (runner : String → Option String → Except SubprocExc PyVal)
    (command : String) (cwd : Option String) :
    (∃ r, execute_command runner command cwd = .returned r)
    ∧ (∀ e,
        blocked_commands.find?
          (fun b => pyStartswith command b || pyIn (" " ++ b) command) = none →
        BLOCKED_SYSTEM_PATHS.find? (fun p => pyIn p command) = none →
        validate_command command = .error e →
        execute_command runner command cwd
          = .returned (.dict [("success", .bool false), ("error", .str e),
              ("command", .str command)])) := by
  constructor
  · unfold execute_command
    cases hb : blocked_commands.find?
        (fun b => pyStartswith command b || pyIn (" " ++ b) command) with
    | some b => exact ⟨_, rfl⟩
    | none =>
      cases hp : BLOCKED_SYSTEM_PATHS.find? (fun p => pyIn p command) with
      | some p => exact ⟨_, rfl⟩
      | none =>
        cases hv : validate_command command with
        | error e => exact ⟨_, rfl⟩
        | ok b =>
          cases hr : runner command cwd with
          | ok r => exact ⟨_, rfl⟩
          | error ex => cases ex <;> exact ⟨_, rfl⟩
  · intro e h1 h2 hv
    unfold execute_command
    simp only [h1, h2, hv]

/-- Witness for C3's amended theorem on the rejected command `cd ..`. -/
theorem execute_command_never_raises_witness :
    execute_command (fun _ _ => .ok (.dict [])) "cd .." none
      = .returned (.dict [("success", .bool false),
          ("error", .str "Command security validation failed: Command contains dangerous pattern: .."),
          ("command", .str "cd ..")]) :=
  (execute_command_never_raises (fun _ _ => .ok (.dict [])) "cd .." none).2
    "Command security validation failed: Command contains dangerous pattern: .."
    rfl rfl rfl

/-- C5 counterexample: `git_clone` performs no wiping.  Cloning into the
sandbox `/sb` that already contains `a.txt` fails (git refuses a non-empty
target) with the filesystem unchanged, and a clone that does succeed inside
that sandbox (fresh target `/sb/repo`) still leaves `a.txt` present. -/
theorem git_clone_no_wipe_counterexample :
    (git_clone (gitCloneProc []) ["/sb", "/sb/a.txt"]
        "https://h/o/repo.git" (some "/sb")).1
      = .dict [("success", .bool false),
          ("error", .str "fatal: destination path already exists and is not an empty directory"),
          ("stdout", .str ""),
          ("stderr", .str "fatal: destination path already exists and is not an empty directory"),
          ("target_dir", .str "sb")]
    ∧ (git_clone (gitCloneProc []) ["/sb", "/sb/a.txt"]
        "https://h/o/repo.git" (some "/sb")).2 = ["/sb", "/sb/a.txt"]
    ∧ (git_clone (gitCloneProc []) ["/sb", "/sb/a.txt"]
        "https://h/o/repo.git" (some "/sb/repo")).1
      = .dict [("success", .bool true),
          ("message", .str "Repository cloned successfully to repo"),
          ("stdout", .str ""),
          ("target_dir", .str "repo")]
    ∧ "/sb/a.txt" ∈ (git_clone (gitCloneProc []) ["/sb", "/sb/a.txt"]
        "https://h/o/repo.git" (some "/sb/repo")).2 :=
  ⟨rfl, rfl, rfl, by decide⟩

/-- The modelled external git process never removes existing entries. -/
theorem gitCloneProc_preserves (repoFiles fs : List String) (url d p : String)
    (hp : p ∈ fs) : p ∈ (gitCloneProc repoFiles fs url d).fs := by
  unfold gitCloneProc
  split
  · exact hp
  · exact List.mem_append_left _ (List.mem_append_left _ hp)

/-- C5 amended: `git_clone`'s own code only creates the target directory
and invokes git; for any external git process that itself removes nothing
(as `git clone` does), every path present before the call is present after
it — in particular a previously present `a.txt` is never wiped. -/
theorem git_clone_preserves_entries
    (gitProc : List String → String → String → GitProcResult)
    (hpres : ∀ fs url d p, p ∈ fs → p ∈ (gitProc fs url d).fs)
    (fs : List String) (repo_url : String) (target_dir : Option String)
    (p : String) (hp : p ∈ fs) :
    p ∈ (git_clone gitProc fs repo_url target_dir).2 := by
  have mem_ite_list : ∀ {c : Bool} {a b : List String},
      p ∈ a → p ∈ b → p ∈ (if c = true then a else b) := by
    intro c a b ha hb
    by_cases h : c = true
    · rw [if_pos h]; exact ha
    · rw [if_neg h]; exact hb
  unfold git_clone
  dsimp only
  rw [apply_ite Prod.snd]
  dsimp only
  rw [ite_self]
  have hp1 : p ∈ (match target_dir with
      | some t => if t != "" && !(fs.contains t) then fs ++ [t] else fs
      | none => fs) := by
    cases target_dir with
    | none => exact hp
    | some t =>
      dsimp only
      by_cases hc : (t != "" && !(fs.contains t)) = true
      · rw [if_pos hc]; exact List.mem_append_left _ hp
      · rw [if_neg hc]; exact hp
  exact mem_ite_list hp1 (hpres _ _ _ _ hp1)

/-- Witness for C5's amended theorem at a concrete state. -/
theorem git_clone_preserves_entries_witness :
    "/sb/a.txt" ∈ (git_clone (gitCloneProc ["main.py"]) ["/sb", "/sb/a.txt"]
        "https://h/o/repo.git" (some "/sb/x")).2 :=
  git_clone_preserves_entries (gitCloneProc ["main.py"])
    (fun fs url d p hp => gitCloneProc_preserves ["main.py"] fs url d p hp)
    ["/sb", "/sb/a.txt"] "https://h/o/repo.git" (some "/sb/x")
    "/sb/a.txt" (by decide)

/-- A second sandbox selection performed right after a first one (with the
parent-directory creation of the first resolution applied in between)
chooses the same sandbox, whatever fresh uuid it draws. -/
theorem chooseSandbox_stable (baseDir : String) (st : SbState)
    (tid : Option String) (u1 u2 : String) (parentOpt : Option String) :
    (chooseSandbox baseDir
        (applyMk (chooseSandbox baseDir st tid u1).2 parentOpt) tid u2).1
      = (chooseSandbox baseDir st tid u1).1 := by
  have hcur := chooseSandbox_current baseDir st tid u1
  have hdisk := chooseSandbox_onDisk baseDir st tid u1
  have hframe := applyMk_frame (chooseSandbox baseDir st tid u1).2 parentOpt
  by_cases hsp : (chooseSandbox baseDir st tid u1).1 = ""
  · obtain ⟨heq, hentry, hdisk0⟩ := chooseSandbox_empty baseDir st tid u1 hsp
    have hpick2 : (chooseSandbox baseDir st tid u1).2
        = { st with current := some "" } := by rw [heq]
    have h2curr : (applyMk (chooseSandbox baseDir st tid u1).2
        parentOpt).current = some "" := by rw [hframe.1, hpick2]
    have h2sand : (applyMk (chooseSandbox baseDir st tid u1).2
        parentOpt).sandboxes = st.sandboxes := by rw [hframe.2.1, hpick2]
    have h2disk : (applyMk (chooseSandbox baseDir st tid u1).2
        parentOpt).onDisk "" = true := by
      apply hframe.2.2
      rw [hpick2]
      exact hdisk0
    have hok : currentOk (applyMk (chooseSandbox baseDir st tid u1).2
        parentOpt) = false := by
      unfold currentOk; rw [h2curr]; simp
    have hentry2 : threadEntry (applyMk (chooseSandbox baseDir st tid u1).2
        parentOpt) tid = some "" := by
      unfold threadEntry at hentry ⊢
      cases tid with
      | none => exact hentry
      | some t => rw [h2sand]; exact hentry
    have hok2 : threadOk (applyMk (chooseSandbox baseDir st tid u1).2
        parentOpt) tid = true := by
      unfold threadOk
      rw [hentry2]
      exact h2disk
    set stx := applyMk (chooseSandbox baseDir st tid u1).2 parentOpt
      with hstx
    rw [hsp]
    unfold chooseSandbox
    rw [if_neg (by simp [hok]), if_pos hok2]
    simp only [hentry2, Option.getD_some]
  · have h2curr : (applyMk (chooseSandbox baseDir st tid u1).2
        parentOpt).current = some (chooseSandbox baseDir st tid u1).1 := by
      rw [hframe.1, hcur]
    have h2disk : (applyMk (chooseSandbox baseDir st tid u1).2
        parentOpt).onDisk (chooseSandbox baseDir st tid u1).1 = true :=
      hframe.2.2 _ hdisk
    have hok : currentOk (applyMk (chooseSandbox baseDir st tid u1).2
        parentOpt) = true := by
      unfold currentOk
      rw [h2curr]
      simp [Bool.and_eq_true, bne_iff_ne, hsp, h2disk]
    set stx := applyMk (chooseSandbox baseDir st tid u1).2 parentOpt
      with hstx
    set r1 := (chooseSandbox baseDir st tid u1).1 with hr1
    unfold chooseSandbox
    rw [if_pos hok, h2curr]
    rfl

/-- C8: calling `get_sandbox` twice with the same thread identifier and
path, with no intervening clone or reset, returns the same path both
times; no step of either call can fail (the model is a total function, as
the source swallows its only fallible directory creation). -/
theorem get_sandbox_idempotent (baseDir cwd : String) (st : SbState)
    (tid fp : Option String) (u1 u2 : String) :
    (get_sandbox baseDir cwd ((get_sandbox baseDir cwd st tid fp u1).2)
        tid fp u2).1
      = (get_sandbox baseDir cwd st tid fp u1).1 := by
  show (resolveParts cwd
      (chooseSandbox baseDir
        (applyMk (chooseSandbox baseDir st tid u1).2
          (resolveParts cwd (chooseSandbox baseDir st tid u1).1 fp).2)
        tid u2).1 fp).1
    = (resolveParts cwd (chooseSandbox baseDir st tid u1).1 fp).1
  rw [chooseSandbox_stable]

/-- C10: the Response Redactor is the identity on every non-dict value and
whenever no sandbox is active (`current_sandbox` is `None`); in the pure
embedding the input value is never altered — the source's copy-at-every-
level discipline is what makes this purely functional reading faithful. -/
theorem normalize_response_paths_identity (cwd : String)
    (cur : Option String) (v : PyVal) :
    ((∀ d, v ≠ .dict d) → normalize_response_paths cwd cur v = v)
    ∧ (cur = none → normalize_response_paths cwd cur v = v) := by
  constructor
  · intro hnd
    cases v with
    | dict d => exact absurd rfl (hnd d)
    | str s => rfl
    | bool b => rfl
    | int n => rfl
    | pynull => rfl
    | list l => rfl
  · intro hc
    subst hc
    cases v <;> rfl

/-- Witness for C10 on a non-dict value and on a dict with no active
sandbox. -/
theorem normalize_response_paths_identity_witness :
    normalize_response_paths "/c" (some "/sb") (.str "x") = .str "x"
    ∧ normalize_response_paths "/c" none (.dict [("a", .str "b")])
      = .dict [("a", .str "b")] :=
  ⟨(normalize_response_paths_identity "/c" (some "/sb") (.str "x")).1
      (fun _ h => PyVal.noConfusion h),
   (normalize_response_paths_identity "/c" none
      (.dict [("a", .str "b")])).2 rfl⟩

end AgentCoder
